import Mathlib

/-!
Verification of the graphics-1-f2025 rendering demo.

Shallow embedding of `src/Window.cpp` and `src/main.cpp`:
pure functions model the per-frame uniform computations, the vertex
shader's position transform, and the resource-release helpers; the
render loop body is modelled as the trace of graphics commands it
issues in one iteration.  The shader-compilation collaborator
(`Shader::CreateFromSource`, whose implementation lives outside the
two given translation units) is modelled as an oracle parameter of
`runMain`, reflecting only its observable result in `main`.
-/

namespace Graphics1

/-! ## Window.cpp: CreateWindow

`CreateWindow` asserts on three conditions in order: `glfwInit()`,
`glfwCreateWindow(...) != nullptr`, `gladLoadGLLoader(...)`.  A failed
assertion aborts the process; success yields a usable window.  We model
abort as `none`. -/

structure Win where
  width : ℤ
  height : ℤ
  title : String
deriving DecidableEq, Repr

def CreateWindow (width height : ℤ) (title : String)
    (glfwInitOk createOk gladOk : Bool) : Option Win :=
  if !glfwInitOk then none
  else if !createOk then none
  else if !gladOk then none
  else some ⟨width, height, title⟩

/-! ## main.cpp: VAOHandle / DestroyTriangle

`DestroyTriangle` releases the VBO then the VAO, each only when its
handle is non-zero, zeroing the handle after release.  We record the
release calls issued. -/

structure VAOHandle where
  vao : ℕ
  vbo : ℕ
deriving DecidableEq, Repr

inductive GLRelease where
  | deleteBuffers (b : ℕ)
  | deleteVertexArrays (v : ℕ)
deriving DecidableEq, Repr

def DestroyTriangle (h : VAOHandle) : VAOHandle × List GLRelease :=
  let step1 : VAOHandle × List GLRelease :=
    if h.vbo ≠ 0 then ({ h with vbo := 0 }, [GLRelease.deleteBuffers h.vbo])
    else (h, [])
  let h1 := step1.1
  let step2 : VAOHandle × List GLRelease :=
    if h1.vao ≠ 0 then ({ h1 with vao := 0 }, [GLRelease.deleteVertexArrays h1.vao])
    else (h1, [])
  (step2.1, step1.2 ++ step2.2)

/-! ## Vertex shader (vertexSrc)

The GLSL `main`: start from `aPos`; if `mode == 3` add `offset`;
else if `mode == 4` rotate about `center` by `angle`; output
`vec4(pos, 0, 1)` and pass the color through. -/

noncomputable def shaderPos (mode : ℤ) (offset : ℝ × ℝ) (angle : ℝ) (center : ℝ × ℝ)
    (aPos : ℝ × ℝ) : ℝ × ℝ :=
  let pos := aPos
  if mode = 3 then
    (pos.1 + offset.1, pos.2 + offset.2)
  else if mode = 4 then
    let p : ℝ × ℝ := (pos.1 - center.1, pos.2 - center.2)
    let s := Real.sin angle
    let c := Real.cos angle
    let p2 : ℝ × ℝ := (c * p.1 - s * p.2, s * p.1 + c * p.2)
    (p2.1 + center.1, p2.2 + center.2)
  else pos

/-! ## Geometry data (main.cpp, the five interleaved vertex arrays)

Each vertex is 5 floats: pos.x, pos.y, r, g, b.  The literals are kept
exactly as written in the source, as rationals. -/

def white : List ℚ :=
  [-0.2, 0.85, 1.0, 1.0, 1.0,
    0.2, 0.85, 1.0, 1.0, 1.0,
    0.0, 0.60, 1.0, 1.0, 1.0]

def rainbow : List ℚ :=
  [-0.2, 0.45, 1.0, 0.0, 0.0,
    0.2, 0.45, 0.0, 1.0, 0.0,
    0.0, 0.20, 0.0, 0.0, 1.0]

def pulsing : List ℚ :=
  [-0.2, -0.05, 0.94, 0.53, 0.75,
    0.2, -0.05, 0.94, 0.53, 0.75,
    0.0, -0.30, 0.94, 0.53, 0.75]

def translating : List ℚ :=
  [-0.15, -0.35, 0.2, 0.8, 0.2,
    0.15, -0.35, 0.2, 0.8, 0.2,
    0.0, -0.60, 0.2, 0.8, 0.2]

def rotating : List ℚ :=
  [-0.25, -0.75, 1.0, 0.6, 0.2,
    0.25, -0.75, 1.0, 0.6, 0.2,
    0.0, -0.55, 1.0, 0.6, 0.2]

/-- Positions of an interleaved (2 pos + 3 color) vertex array:
every 5th pair starting at offset 0. -/
def positionsOf : List ℚ → List (ℚ × ℚ)
  | x :: y :: _ :: _ :: _ :: rest => (x, y) :: positionsOf rest
  | _ => []

/-- Arithmetic mean of a list of 2D points (the centroid). -/
def centroid (vs : List (ℚ × ℚ)) : ℚ × ℚ :=
  ((vs.map Prod.fst).sum / vs.length, (vs.map Prod.snd).sum / vs.length)

/-! ## Per-frame uniform computations (render loop body) -/

/-- `float translateAmount = sinf(t * 1.2f) * 0.75f;` and
`glUniform2f(locOffset, translateAmount, 0.0f);` -/
noncomputable def translateOffset (t : ℝ) : ℝ × ℝ :=
  (Real.sin (t * 1.2) * 0.75, 0)

/-- `float ang = t * 1.0f;` -/
def rotationAngle (t : ℝ) : ℝ :=
  t * 1.0

/-- `glUniform2f(locCenter, 0.0f, -0.68f);` -/
def rotationCenter : ℝ × ℝ :=
  (0, -0.68)

/-! ## The render-loop body as a command trace -/

/-- Tag naming each of the five geometry buffers, in creation order. -/
inductive Buf where
  | white
  | rainbow
  | pulsing
  | translatingB
  | rotatingB
deriving DecidableEq, Repr

/-- The RenderMode tag the driver writes into the `mode` uniform for
each buffer. -/
def renderModeTag : Buf → ℤ
  | Buf.white => 0
  | Buf.rainbow => 1
  | Buf.pulsing => 2
  | Buf.translatingB => 3
  | Buf.rotatingB => 4

/-- One graphics command issued by the render-loop body. -/
inductive Ev where
  | clearColor (r g b a : ℝ)
  | clear
  | useProgram
  | setTime (t : ℝ)
  | setMode (m : ℤ)
  | setOffset (x y : ℝ)
  | setAngle (a : ℝ)
  | setCenter (x y : ℝ)
  | bindVAO (b : Option Buf)
  | draw (first count : ℕ)

/-- The exact command sequence of one iteration of the `while` loop in
`main`, at elapsed time `t` (the value returned by `glfwGetTime()`). -/
noncomputable def frame (t : ℝ) : List Ev :=
  [Ev.clearColor (239.0 / 255.0) (136.0 / 255.0) (190.0 / 255.0) 1.0,
   Ev.clear,
   Ev.useProgram,
   Ev.setTime t,
   Ev.setMode 0,
   Ev.bindVAO (some Buf.white),
   Ev.draw 0 3,
   Ev.setMode 1,
   Ev.bindVAO (some Buf.rainbow),
   Ev.draw 0 3,
   Ev.setMode 2,
   Ev.bindVAO (some Buf.pulsing),
   Ev.draw 0 3,
   Ev.setMode 3,
   Ev.setOffset (translateOffset t).1 (translateOffset t).2,
   Ev.bindVAO (some Buf.translatingB),
   Ev.draw 0 3,
   Ev.setMode 4,
   Ev.setAngle (rotationAngle t),
   Ev.setCenter rotationCenter.1 rotationCenter.2,
   Ev.bindVAO (some Buf.rotatingB),
   Ev.draw 0 3,
   Ev.bindVAO none]

def isDraw : Ev → Bool
  | Ev.draw _ _ => true
  | _ => false

def isSetMode : Ev → Bool
  | Ev.setMode _ => true
  | _ => false

def isSetTime : Ev → Bool
  | Ev.setTime _ => true
  | _ => false

def isUseProgram : Ev → Bool
  | Ev.useProgram => true
  | _ => false

def isBind : Ev → Bool
  | Ev.bindVAO _ => true
  | _ => false

/-- The transform-related uniform stores: `offset`, `angle`, `center`. -/
def isXformSet : Ev → Bool
  | Ev.setOffset _ _ => true
  | Ev.setAngle _ => true
  | Ev.setCenter _ _ => true
  | _ => false

/-- Vertex count of a draw command (0 for anything else). -/
def drawCount : Ev → ℕ
  | Ev.draw _ n => n
  | _ => 0

/-! ## main as a whole (startup / shutdown, exit status)

The shader-compilation collaborator is abstracted as its observable
result: `Except.error e` when `CreateFromSource` returns false with
diagnostic `e`, `Except.ok ()` on success.  `numFrames` is the number
of loop iterations before `WindowShouldClose()` turns true. -/

inductive SysEv where
  | windowCreated
  | logged (s : String)
  | ranFrames (n : ℕ)
  | buffersDestroyed
  | shaderDestroyed
  | windowDestroyed
deriving DecidableEq, Repr

def runMain (compileResult : Except String Unit) (numFrames : ℕ) :
    ℤ × List SysEv :=
  match compileResult with
  | Except.error e =>
      (-1, [SysEv.windowCreated,
            SysEv.logged ("Shader compile/link error:\n" ++ e),
            SysEv.windowDestroyed])
  | Except.ok _ =>
      (0, [SysEv.windowCreated,
           SysEv.ranFrames numFrames,
           SysEv.buffersDestroyed,
           SysEv.shaderDestroyed,
           SysEv.windowDestroyed])

/-! ## Theorems -/

/-- C1: if shader compilation or linking fails during startup, `main`
logs the diagnostic string, destroys the already-created window, and
exits with a non-zero status; if startup succeeds and the window is
later closed by the user, the process exits with status 0. -/
theorem startup_exit_status_spec (e : String) (n : ℕ) :
    (runMain (Except.error e) n).1 ≠ 0 ∧
    SysEv.logged ("Shader compile/link error:\n" ++ e) ∈ (runMain (Except.error e) n).2 ∧
    SysEv.windowDestroyed ∈ (runMain (Except.error e) n).2 ∧
    (runMain (Except.ok ()) n).1 = 0 := by
  refine ⟨by simp [runMain], ?_, ?_, rfl⟩ <;> simp [runMain]

/-- C2: the translation offset equals `(sin(t * 1.2) * 0.75, 0)`; its
x-component lies in `[-0.75, 0.75]`, its y-component is 0, and for
elapsed time `t ≥ 0` the x-component vanishes exactly at
`t = k * π / 1.2` for natural `k`. -/
theorem translate_offset_spec (t : ℝ) :
    translateOffset t = (Real.sin (t * 1.2) * 0.75, 0) ∧
    -0.75 ≤ (translateOffset t).1 ∧ (translateOffset t).1 ≤ 0.75 ∧
    (translateOffset t).2 = 0 ∧
    (0 ≤ t → ((translateOffset t).1 = 0 ↔ ∃ k : ℕ, t = k * Real.pi / 1.2)) := by
  refine ⟨rfl, ?_, ?_, rfl, ?_⟩
  · have := Real.neg_one_le_sin (t * 1.2)
    simp only [translateOffset]
    nlinarith
  · have := Real.sin_le_one (t * 1.2)
    simp only [translateOffset]
    nlinarith
  · intro ht
    simp only [translateOffset]
    constructor
    · intro h
      have hs : Real.sin (t * 1.2) = 0 := by nlinarith
      obtain ⟨n, hn⟩ := Real.sin_eq_zero_iff.mp hs
      have hpi := Real.pi_pos
      have hn0 : (0 : ℝ) ≤ (n : ℝ) := by nlinarith
      have hn0' : (0 : ℤ) ≤ n := by exact_mod_cast hn0
      refine ⟨n.toNat, ?_⟩
      have hcast : ((n.toNat : ℕ) : ℝ) = (n : ℝ) := by
        exact_mod_cast congrArg (Int.cast : ℤ → ℝ) (Int.toNat_of_nonneg hn0')
      rw [hcast, eq_div_iff (by norm_num : (1.2 : ℝ) ≠ 0)]
      linarith
    · rintro ⟨k, rfl⟩
      have h12 : (1.2 : ℝ) ≠ 0 := by norm_num
      have harg : (k : ℝ) * Real.pi / 1.2 * 1.2 = (k : ℝ) * Real.pi := by
        field_simp
      rw [harg, Real.sin_nat_mul_pi]
      ring

/-- C2 witness: at elapsed time 0 the offset is the origin. -/
theorem translate_offset_spec_witness :
    (translateOffset 0).2 = 0 ∧ (translateOffset 0).1 = 0 := by
  refine ⟨(translate_offset_spec 0).2.2.2.1, ?_⟩
  exact ((translate_offset_spec 0).2.2.2.2 (le_refl 0)).mpr ⟨0, by norm_num⟩

/-- C3: the rotation angle equals `t * 1.0` (one radian per second),
unwrapped, and is strictly increasing in elapsed time. -/
theorem rotation_angle_spec (t₁ t₂ : ℝ) (h0 : 0 ≤ t₁) (h12 : t₁ < t₂) :
    rotationAngle t₁ = t₁ ∧ rotationAngle t₂ = t₂ ∧
    rotationAngle t₁ < rotationAngle t₂ := by
  have e1 : rotationAngle t₁ = t₁ := by norm_num [rotationAngle]
  have e2 : rotationAngle t₂ = t₂ := by norm_num [rotationAngle]
  exact ⟨e1, e2, by rw [e1, e2]; exact h12⟩

/-- C3 witness: the angle computed at `t = 1` exceeds the one at `t = 0`. -/
theorem rotation_angle_spec_witness :
    (0 : ℝ) ≤ 0 ∧ (0 : ℝ) < 1 ∧ rotationAngle 0 < rotationAngle 1 :=
  ⟨le_refl 0, by norm_num,
   (rotation_angle_spec 0 1 (le_refl 0) (by norm_num)).2.2⟩

/-- C4: every loop iteration issues exactly 5 draw calls, one per
geometry buffer in the fixed order white / rainbow / pulsing /
translating / rotating, each of exactly 3 vertices, with the `mode`
uniform set to the buffer's RenderMode tag before the draw. -/
theorem frame_draw_dispatch (t : ℝ) :
    ((frame t).filter fun e => isSetMode e || isBind e || isDraw e) =
      [Ev.setMode (renderModeTag Buf.white), Ev.bindVAO (some Buf.white), Ev.draw 0 3,
       Ev.setMode (renderModeTag Buf.rainbow), Ev.bindVAO (some Buf.rainbow), Ev.draw 0 3,
       Ev.setMode (renderModeTag Buf.pulsing), Ev.bindVAO (some Buf.pulsing), Ev.draw 0 3,
       Ev.setMode (renderModeTag Buf.translatingB), Ev.bindVAO (some Buf.translatingB), Ev.draw 0 3,
       Ev.setMode (renderModeTag Buf.rotatingB), Ev.bindVAO (some Buf.rotatingB), Ev.draw 0 3,
       Ev.bindVAO none] ∧
    (frame t).countP isDraw = 5 ∧
    (frame t).filter isDraw = List.replicate 5 (Ev.draw 0 3) := by
  exact ⟨rfl, rfl, rfl⟩

/-- C5: `CreateWindow` aborts the process exactly when windowing-library
initialization, window/context creation, or graphics-function loading
fails. -/
theorem create_window_aborts (w h : ℤ) (title : String) (i c g : Bool) :
    (CreateWindow w h title i c g = none ↔ (i = false ∨ c = false ∨ g = false)) := by
  cases i <;> cases c <;> cases g <;> simp [CreateWindow]

/-- C6: the `center` uniform for the rotating triangle is the literal
constant `(0, -0.68)`, set in every frame, and that constant
approximates (within 1/100 per component) the centroid of the rotating
triangle's three vertex positions. -/
theorem rotation_center_spec :
    rotationCenter = ((0 : ℝ), (-0.68 : ℝ)) ∧
    (∀ t : ℝ, Ev.setCenter rotationCenter.1 rotationCenter.2 ∈ frame t) ∧
    positionsOf rotating = [(-0.25, -0.75), (0.25, -0.75), (0.0, -0.55)] ∧
    (centroid (positionsOf rotating)).1 = 0 ∧
    |(-0.68 : ℚ) - (centroid (positionsOf rotating)).2| ≤ 1 / 100 := by
  refine ⟨rfl, fun t => ?_, ?_, ?_, ?_⟩
  · simp [frame]
  · norm_num [rotating, positionsOf]
  · norm_num [centroid, positionsOf, rotating]
  · rw [abs_le]
    constructor <;> norm_num [centroid, positionsOf, rotating]

/-- C7: in the part of the frame covering the Static, PerVertexColor
and PulsingColor draws (everything up to and including the third draw
call), no `offset`, `angle` or `center` uniform is stored. -/
theorem static_modes_no_extra_uniforms (t : ℝ) :
    ((frame t).take 13).countP isXformSet = 0 ∧
    ((frame t).take 13).countP isDraw = 3 ∧
    ((frame t).drop 13).countP isDraw = 2 := by
  exact ⟨rfl, rfl, rfl⟩

/-- C8: each frame sets the `time` uniform to the elapsed time exactly
once, after activating the shader program and before any draw call. -/
theorem time_uniform_once_per_frame (t : ℝ) :
    (frame t).countP isSetTime = 1 ∧
    Ev.setTime t ∈ frame t ∧
    (frame t).findIdx isUseProgram = 2 ∧
    (frame t).findIdx isSetTime = 3 ∧
    (frame t).findIdx isDraw = 6 := by
  refine ⟨rfl, ?_, rfl, rfl, rfl⟩
  simp [frame]

/-- C9: for every `mode` other than 3 and 4 — including values outside
0..4 — the vertex shader leaves the input position unchanged. -/
theorem shader_pos_id_outside_transform_modes
    (mode : ℤ) (offset : ℝ × ℝ) (angle : ℝ) (center aPos : ℝ × ℝ)
    (h3 : mode ≠ 3) (h4 : mode ≠ 4) :
    shaderPos mode offset angle center aPos = aPos := by
  simp [shaderPos, h3, h4]

/-- C9 witness: at the unexpected mode 7 the position passes through. -/
theorem shader_pos_id_witness :
    (7 : ℤ) ≠ 3 ∧ (7 : ℤ) ≠ 4 ∧
    shaderPos 7 (1, 2) 5 (3, 4) (9, 11) = (9, 11) :=
  ⟨by decide, by decide,
   shader_pos_id_outside_transform_modes 7 (1, 2) 5 (3, 4) (9, 11)
     (by decide) (by decide)⟩

/-- C10: `DestroyTriangle` zeroes both handles, so a second call on the
result issues no release operations and leaves the handle unchanged. -/
theorem destroy_triangle_idempotent (h : VAOHandle) :
    (DestroyTriangle h).1 = ⟨0, 0⟩ ∧
    DestroyTriangle (DestroyTriangle h).1 = ((DestroyTriangle h).1, []) := by
  have h1 : (DestroyTriangle h).1 = ⟨0, 0⟩ := by
    rcases h with ⟨vao, vbo⟩
    by_cases hb : vbo = 0 <;> by_cases ha : vao = 0 <;>
      simp [DestroyTriangle, hb, ha]
  refine ⟨h1, ?_⟩
  rw [h1]
  rfl

end Graphics1
